import Mathlib

/-
Verification development for the migration-offload copy subsystem:
the registry (mm/migrate_offc.c), the CPU multithreaded batch copy
engine (drivers/migoffcopy/mtcopy/copy_pages.c) and the DMA batch
copy engine (drivers/migoffcopy/dcbm/dcbm.c).

Shallow embedding conventions:
- kernel addresses are modelled as natural numbers;
- machine-dependent effects (kzalloc success, copy_mc_to_kernel failure,
  dma mapping/prep/submit failure, available dma channels) are supplied
  by explicit oracle parameters, so every code path of the source is
  reachable in the model;
- error codes are integers, returned negated exactly as in the source.
-/

/-! ## Error codes (include/uapi/asm-generic/errno-base.h) -/

def EAGAIN : Int := 11

def ENOMEM : Int := 12

def EBUSY : Int := 16

def EINVAL : Int := 22

def ENOTSUPP : Int := 524

/-- PAGE_SIZE on the build the drivers target (4 KiB pages). -/
def PAGE_SIZE : Nat := 4096

/-- The model is built for a !CONFIG_HIGHMEM configuration, matching the
early `IS_ENABLED(CONFIG_HIGHMEM)` bail-out in copy_page_lists_mt. -/
def CONFIG_HIGHMEM : Bool := false

/-! ## Shared data model -/

/-- A folio as far as the admissibility predicates and the copy loops
inspect it: page count, hugetlb flag, private data flag, and the kernel
virtual address of its first page (page_address). -/
structure Folio where
  nr_pages : Nat
  hugetlb : Bool
  has_private : Bool
  addr : Nat
deriving DecidableEq

/-- One (destination, source) transfer unit pair of a batch, carrying the
two page addresses and the shared page count (the engines warn when the
counts differ; the spec makes equality a batch invariant). -/
structure FolioPair where
  dst_addr : Nat
  src_addr : Nat
  nr_pages : Nat
deriving DecidableEq

/-! ## CPU multithreaded engine (drivers/migoffcopy/mtcopy/copy_pages.c) -/

def MAX_NUM_COPY_THREADS : Nat := 64

/-- struct copy_item: one contiguous copy assignment handed to a worker. -/
structure CopyItem where
  to_ : Nat
  from_ : Nat
  chunk_size : Nat
deriving DecidableEq

/-- The two work-partitioning shapes of copy_page_lists_mt: A splits every
pair into per-worker chunks (taken when nr_items < total_mt_num), B hands
whole pairs to workers (taken otherwise). -/
inductive MtPolicy where
  | A
  | B
deriving DecidableEq

/-- `unsigned int total_mt_num = limit_mt_num; if (total_mt_num >
MAX_NUM_COPY_THREADS) total_mt_num = MAX_NUM_COPY_THREADS;` -/
def total_mt_num_of (limit_mt_num : Nat) : Nat :=
  min limit_mt_num MAX_NUM_COPY_THREADS

/-- The kzalloc loop of copy_page_lists_mt tries worker indices in order
and stops at the first failed allocation; `allocOk` is the allocation
oracle. Returns the index of the first failure, if any. -/
def firstAllocFailure (allocOk : Nat → Bool) (total_mt_num : Nat) : Option Nat :=
  (List.range total_mt_num).find? (fun cpu => !(allocOk cpu))

/-- Per-worker item count under Policy B:
`num_xfer_per_thread + (cpu < (nr_items % total_mt_num))`. -/
def policyB_num_items (nr_items total_mt_num cpu : Nat) : Nat :=
  nr_items / total_mt_num + (if cpu < nr_items % total_mt_num then 1 else 0)

/-- Policy A item list of worker `cpu`: the cpu-th chunk of every pair,
`chunk_size = PAGE_SIZE * folio_nr_pages(src) / total_mt_num`, with the
chunk offsets `vto + chunk_size * cpu` and `vfrom + chunk_size * cpu`. -/
def policyA_items (total_mt_num cpu : Nat) (pairs : List FolioPair) : List CopyItem :=
  pairs.map (fun p =>
    { to_ := p.dst_addr + (PAGE_SIZE * p.nr_pages / total_mt_num) * cpu
      from_ := p.src_addr + (PAGE_SIZE * p.nr_pages / total_mt_num) * cpu
      chunk_size := PAGE_SIZE * p.nr_pages / total_mt_num })

/-- Policy B item for one whole pair:
`to = page_address(dst), from = page_address(src),
chunk_size = PAGE_SIZE * folio_nr_pages(src)`. -/
def wholePairItem (p : FolioPair) : CopyItem :=
  { to_ := p.dst_addr, from_ := p.src_addr, chunk_size := PAGE_SIZE * p.nr_pages }

/-- Splits a list into consecutive blocks of the given sizes; this is the
effect of the Policy B filling loop, which fills worker 0 with its
`num_items` first pairs, then worker 1, and so on. -/
def splitByCounts {α : Type} : List Nat → List α → List (List α)
  | [], _ => []
  | n :: ns, xs => xs.take n :: splitByCounts ns (xs.drop n)

/-- The item lists of the total_mt_num work descriptors built by
copy_page_lists_mt, by policy. -/
def mt_workers (limit_mt_num : Nat) (pairs : List FolioPair) : List (List CopyItem) :=
  if pairs.length < total_mt_num_of limit_mt_num then
    (List.range (total_mt_num_of limit_mt_num)).map
      (fun cpu => policyA_items (total_mt_num_of limit_mt_num) cpu pairs)
  else
    splitByCounts
      ((List.range (total_mt_num_of limit_mt_num)).map
        (policyB_num_items pairs.length (total_mt_num_of limit_mt_num)))
      (pairs.map wholePairItem)

/-- copy_page_work_queue_thread: a worker ORs the failure of
copy_page_routine (copy_mc_to_kernel) over its item list into its `ret`
flag; `routineFails` is the machine-check oracle. The result is the
truth of the per-worker failure flag. -/
def copy_page_work_queue_thread (routineFails : CopyItem → Bool)
    (item_list : List CopyItem) : Bool :=
  item_list.any routineFails

/-- The flush_work aggregation loop of copy_page_lists_mt: starting from
`err = 0`, each worker with a set `ret` flag overwrites `err` with
-EAGAIN. -/
def mt_wait_aggregate (rets : List Bool) : Int :=
  rets.foldl (fun err r => if r then -EAGAIN else err) 0

/-- Observable outcome of one copy_page_lists_mt dispatch. `workers` is
the list of queued work descriptors (their item lists, in queue order);
`nQueued` counts queue_work calls; `nAlloc` counts successful kzalloc
calls and `nFreed` the kfree calls on non-null descriptors. -/
structure MtOutcome where
  retval : Int
  policy : Option MtPolicy
  workers : List (List CopyItem)
  nQueued : Nat
  nAlloc : Nat
  nFreed : Nat
deriving DecidableEq

/-- copy_page_lists_mt, with `limit_mt_num` captured at entry and the
allocation / copy-failure oracles made explicit. -/
def copy_page_lists_mt (limit_mt_num : Nat) (allocOk : Nat → Bool)
    (routineFails : CopyItem → Bool) (pairs : List FolioPair) : MtOutcome :=
  if CONFIG_HIGHMEM then ⟨-ENOTSUPP, none, [], 0, 0, 0⟩
  else
    match firstAllocFailure allocOk (total_mt_num_of limit_mt_num) with
    | some k => ⟨-ENOMEM, none, [], 0, k, k⟩
    | none =>
        ⟨mt_wait_aggregate
            ((mt_workers limit_mt_num pairs).map
              (copy_page_work_queue_thread routineFails)),
          some (if pairs.length < total_mt_num_of limit_mt_num
            then MtPolicy.A else MtPolicy.B),
          mt_workers limit_mt_num pairs,
          total_mt_num_of limit_mt_num,
          total_mt_num_of limit_mt_num,
          total_mt_num_of limit_mt_num⟩

/-- can_migrate_mt: the CPU engine admissibility predicate. -/
def can_migrate_mt (dst src : Folio) : Bool :=
  true

/-- mt_threads_set: the sysfs worker-count setter. `parsed` is the
kstrtouint result (error code, or the parsed unsigned value), `count`
the sysfs buffer length returned on success. Result: (new limit_mt_num,
return value). -/
def mt_threads_set (limit_mt_num : Nat) (parsed : Except Int Nat)
    (count : Nat) : Nat × Int :=
  match parsed with
  | Except.error ccode => (limit_mt_num, ccode)
  | Except.ok threads =>
      if 0 < threads ∧ threads ≤ MAX_NUM_COPY_THREADS then (threads, (count : Int))
      else (limit_mt_num, -EINVAL)

/-! ## DMA engine (drivers/migoffcopy/dcbm/dcbm.c) -/

def MAX_DMA_CHANNELS : Nat := 16

/-- can_migrate_dma: rejects hugetlb folios, folios with private data,
and pairs with mismatched page counts. -/
def can_migrate_dma (dst src : Folio) : Bool :=
  !(src.hugetlb || dst.hugetlb || src.has_private || dst.has_private
    || (src.nr_pages != dst.nr_pages))

/-- Which step of process_folio_dma_transfer fails for a pair, if any. -/
inductive DmaPrepStage where
  | mapSrcFail
  | mapDstFail
  | prepFail
  | submitFail
  | success
deriving DecidableEq

/-- process_folio_dma_transfer return value: -ENOMEM on either mapping
error, -EBUSY when device_prep_dma_memcpy yields no descriptor, -EINVAL
on a submit error, 0 on success. -/
def process_folio_dma_transfer : DmaPrepStage → Int
  | DmaPrepStage.mapSrcFail => -ENOMEM
  | DmaPrepStage.mapDstFail => -ENOMEM
  | DmaPrepStage.prepFail => -EBUSY
  | DmaPrepStage.submitFail => -EINVAL
  | DmaPrepStage.success => 0

/-- Hardware/allocator oracle for one folios_copy_dma_parallel call:
whether the two kmalloc_array calls succeed, how many channels
dma_request_channel can hand out, and at which step pair `i` fails. -/
structure DmaEnv where
  channelsAlloc : Bool
  availChannels : Nat
  worksAlloc : Bool
  unitStage : Nat → DmaPrepStage

/-- Pair `i` takes the per-unit fallback iff its
process_folio_dma_transfer call returns nonzero. -/
def dmaUnitFails (env : DmaEnv) (i : Nat) : Bool :=
  process_folio_dma_transfer (env.unitStage i) != 0

/-- Running state of the STEP 1 submit loop: indices copied by the
per-unit folio_copy fallback, indices submitted asynchronously, the
`failed` counter and the round-robin `channel_idx`. -/
structure DmaLoopState where
  syncCopied : List Nat
  asyncSubmitted : List Nat
  failed : Nat
  channel_idx : Nat
deriving DecidableEq

/-- One iteration of the STEP 1 loop of folios_copy_dma_parallel: on a
nonzero process_folio_dma_transfer result the pair is folio_copy-ed and
`failed` incremented, otherwise it stays submitted; either way
channel_idx advances round-robin. -/
def dma_submit_step (env : DmaEnv) (actual_channels : Nat)
    (st : DmaLoopState) (i : Nat) : DmaLoopState :=
  if dmaUnitFails env i then
    ⟨st.syncCopied ++ [i], st.asyncSubmitted, st.failed + 1,
      (st.channel_idx + 1) % actual_channels⟩
  else
    ⟨st.syncCopied, st.asyncSubmitted ++ [i], st.failed,
      (st.channel_idx + 1) % actual_channels⟩

/-- The whole STEP 1 loop over the batch indices 0..folios_cnt_total-1. -/
def dma_submit_loop (env : DmaEnv) (actual_channels folios_cnt_total : Nat) :
    DmaLoopState :=
  (List.range folios_cnt_total).foldl (dma_submit_step env actual_channels)
    ⟨[], [], 0, 0⟩

/-- Observable outcome of one folios_copy_dma_parallel call.
`fallbackCopied` is the number of pairs copied by the whole-batch
folios_copy fallback; `syncCopied` the indices copied by the per-unit
folio_copy fallback; `failed` the diagnostic fallback counter. -/
structure DmaOutcome where
  retval : Int
  fallbackCopied : Nat
  syncCopied : List Nat
  asyncSubmitted : List Nat
  failed : Nat
  actual_channels : Nat
deriving DecidableEq

/-- folios_copy_dma_parallel: clamp thread_count to the batch size, then
bail to the whole-batch CPU fallback when the channel array cannot be
allocated, when no channel is granted, or when the work records cannot
be allocated; otherwise run the submit loop. All paths return 0. -/
def folios_copy_dma_parallel (env : DmaEnv)
    (folios_cnt_total thread_count : Nat) : DmaOutcome :=
  if !env.channelsAlloc then
    ⟨0, folios_cnt_total, [], [], 0, 0⟩
  else if min (min thread_count folios_cnt_total) env.availChannels = 0 then
    ⟨0, folios_cnt_total, [], [], 0, 0⟩
  else if !env.worksAlloc then
    ⟨0, folios_cnt_total, [], [], 0, 0⟩
  else
    ⟨0, 0,
      (dma_submit_loop env (min (min thread_count folios_cnt_total)
        env.availChannels) folios_cnt_total).syncCopied,
      (dma_submit_loop env (min (min thread_count folios_cnt_total)
        env.availChannels) folios_cnt_total).asyncSubmitted,
      (dma_submit_loop env (min (min thread_count folios_cnt_total)
        env.availChannels) folios_cnt_total).failed,
      min (min thread_count folios_cnt_total) env.availChannels⟩

/-- folios_copy_dma: the migrate_offc entry point, delegating to
folios_copy_dma_parallel with the stored nr_dma_chan. -/
def folios_copy_dma (env : DmaEnv) (nr_dma_chan folios_cnt : Nat) : DmaOutcome :=
  folios_copy_dma_parallel env folios_cnt nr_dma_chan

/-- nr_dma_chan_set: the sysfs channel-count setter. `parsed` is the
kstrtoint result. Values below 1 are rejected with -EINVAL; values at or
above MAX_DMA_CHANNELS are clamped to MAX_DMA_CHANNELS; the success
return value is sizeof(int) = 4. Result: (new nr_dma_chan, return
value). -/
def nr_dma_chan_set (nr_dma_chan : Nat) (parsed : Except Int Int) : Nat × Int :=
  match parsed with
  | Except.error ccode => (nr_dma_chan, ccode)
  | Except.ok action =>
      if action < 1 then (nr_dma_chan, -EINVAL)
      else if (MAX_DMA_CHANNELS : Int) ≤ action then (MAX_DMA_CHANNELS, 4)
      else (action.toNat, 4)

/-! ## Registry (mm migration-offload core, src/unnamed/part_000) -/

/-- struct migrator: the backend descriptor as the registry claims need
it. The transfer function pointer is engine-specific and is modelled by
the engine functions above; the descriptor keeps the name and the
admissibility predicate. -/
structure Migrator where
  name : String
  can_migrate_offc : Folio → Folio → Bool

/-- can_offc_migrate: the default (kernel builtin) admissibility
predicate, always true. -/
def can_offc_migrate (dst src : Folio) : Bool :=
  true

/-- The built-in default descriptor the global `migrator` variable is
statically set to: name "kernel", default predicate. -/
def migrator_default : Migrator :=
  { name := "kernel", can_migrate_offc := can_offc_migrate }

/-- cpu_migrator: the CPU engine descriptor (name "CPU_MT_COPY"). -/
def cpu_migrator : Migrator :=
  { name := "CPU_MT_COPY", can_migrate_offc := can_migrate_mt }

/-- dmigrator: the DMA engine descriptor (name "DCBM"). -/
def dmigrator : Migrator :=
  { name := "DCBM", can_migrate_offc := can_migrate_dma }

/-- Registry state: the global `migrator` slot and the atomic
dispatch_to_offc flag. -/
structure RegistryState where
  migrator : Migrator
  dispatch_to_offc : Bool

/-- The state at load time: `migrator` statically holds the default
descriptor and dispatch_to_offc is ATOMIC_INIT(0). -/
def registry_init : RegistryState :=
  { migrator := migrator_default, dispatch_to_offc := false }

/-- Modelled from the spec: offc_update_migrator is declared in
include/linux/migrate_offc.h but its definition is outside the provided
sources. Per the Registry contract, install "atomically publishes
`descriptor` as active", and uninstall (the NULL argument, used by
stop_offloading) "clears the active descriptor", which restores the
built-in default descriptor that the global slot statically holds. -/
def offc_update_migrator (s : RegistryState) (m : Option Migrator) : RegistryState :=
  match m with
  | some mig => { s with migrator := mig }
  | none => { s with migrator := migrator_default }

/-- start_offloading: unconditionally offc_update_migrator(m), then
atomic_try_cmpxchg(&dispatch_to_offc, 0, 1). -/
def start_offloading (s : RegistryState) (m : Migrator) : RegistryState :=
  let s1 := offc_update_migrator s (some m)
  { s1 with dispatch_to_offc :=
      if s1.dispatch_to_offc = false then true else s1.dispatch_to_offc }

/-- stop_offloading: offc_update_migrator(NULL), then
atomic_try_cmpxchg(&dispatch_to_offc, 1, 0). -/
def stop_offloading (s : RegistryState) : RegistryState :=
  let s1 := offc_update_migrator s none
  { s1 with dispatch_to_offc :=
      if s1.dispatch_to_offc = true then false else s1.dispatch_to_offc }

/-- get_active_migrator_name returns a pointer to the name array embedded
in the global `migrator` struct; the pointer is never NULL, so the
result is always present. -/
def get_active_migrator_name (s : RegistryState) : Option String :=
  some s.migrator.name

/-- A concrete 10-pair batch of single-page folios (the spec scenario
"batch of 10 pairs, worker limit 4"). -/
def c1pairs : List FolioPair :=
  List.replicate 10 { dst_addr := 4096, src_addr := 40960, nr_pages := 1 }

/-! ## Helper lemmas -/

theorem mt_wait_fold (l : List Bool) (e : Int) :
    l.foldl (fun err r => if r then -EAGAIN else err) e
      = if l.any id then -EAGAIN else e := by
  induction l generalizing e with
  | nil => simp
  | cons b t ih => cases b <;> simp [ih]

theorem mt_wait_aggregate_eq (l : List Bool) :
    mt_wait_aggregate l = if l.any id then -EAGAIN else 0 := by
  unfold mt_wait_aggregate
  exact mt_wait_fold l 0

theorem any_map_id {α : Type} (l : List α) (f : α → Bool) :
    (l.map f).any id = l.any f := by
  induction l with
  | nil => rfl
  | cons a t ih =>
    simp only [List.map_cons, List.any_cons, ih]
    rfl

theorem mt_wait_aggregate_map (W : List (List CopyItem))
    (routineFails : CopyItem → Bool) :
    mt_wait_aggregate (W.map (copy_page_work_queue_thread routineFails))
      = if W.any (copy_page_work_queue_thread routineFails)
        then -EAGAIN else 0 := by
  rw [mt_wait_aggregate_eq]
  simp only [any_map_id]

theorem all_bnot_eq_bnot_any {α : Type} (l : List α) (p : α → Bool) :
    l.all (fun a => !(p a)) = !(l.any p) := by
  induction l with
  | nil => simp
  | cons a t ih => simp [ih]

theorem splitByCounts_map_length {α : Type} (ns : List Nat) (xs : List α)
    (h : ns.sum ≤ xs.length) :
    (splitByCounts ns xs).map List.length = ns := by
  induction ns generalizing xs with
  | nil => simp [splitByCounts]
  | cons n t ih =>
    have hsum : n + t.sum ≤ xs.length := by simpa using h
    simp only [splitByCounts, List.map_cons, List.length_take]
    rw [Nat.min_eq_left (by omega),
      ih (xs.drop n) (by rw [List.length_drop]; omega)]

theorem policyB_sum_aux (q r T : Nat) :
    ((List.range T).map (fun c => q + (if c < r then 1 else 0))).sum
      = T * q + min r T := by
  induction T with
  | zero => simp
  | succ T ih =>
    rw [List.range_succ, List.map_append, List.sum_append, ih]
    by_cases hc : T < r
    · simp only [List.map_cons, List.map_nil, List.sum_cons, List.sum_nil,
        if_pos hc]
      rw [Nat.min_eq_right (by omega), Nat.min_eq_right (by omega),
        Nat.succ_mul]
      omega
    · simp only [List.map_cons, List.map_nil, List.sum_cons, List.sum_nil,
        if_neg hc]
      rw [Nat.min_eq_left (by omega), Nat.min_eq_left (by omega),
        Nat.succ_mul]
      omega

theorem policyB_eta (N T : Nat) :
    policyB_num_items N T = fun c => N / T + (if c < N % T then 1 else 0) :=
  rfl

theorem policyB_sum (N T : Nat) (hT : 0 < T) :
    ((List.range T).map (policyB_num_items N T)).sum = N := by
  rw [policyB_eta, policyB_sum_aux (N / T) (N % T) T,
    Nat.min_eq_left (Nat.le_of_lt (Nat.mod_lt _ hT))]
  exact Nat.div_add_mod N T

theorem dma_submit_loop_spec (env : DmaEnv) (actual : Nat) (l : List Nat)
    (st : DmaLoopState) :
    ((l.foldl (dma_submit_step env actual) st).syncCopied
        = st.syncCopied ++ l.filter (fun i => dmaUnitFails env i))
    ∧ ((l.foldl (dma_submit_step env actual) st).asyncSubmitted
        = st.asyncSubmitted ++ l.filter (fun i => !(dmaUnitFails env i)))
    ∧ ((l.foldl (dma_submit_step env actual) st).failed
        = st.failed + (l.filter (fun i => dmaUnitFails env i)).length) := by
  induction l generalizing st with
  | nil => simp
  | cons i t ih =>
    simp only [List.foldl_cons, List.filter_cons]
    obtain ⟨h1, h2, h3⟩ := ih (dma_submit_step env actual st i)
    cases hf : dmaUnitFails env i
    · refine ⟨?_, ?_, ?_⟩
      · rw [h1]; simp [dma_submit_step, hf]
      · rw [h2]; simp [dma_submit_step, hf]
      · rw [h3]; simp [dma_submit_step, hf]
    · refine ⟨?_, ?_, ?_⟩
      · rw [h1]; simp [dma_submit_step, hf]
      · rw [h2]; simp [dma_submit_step, hf]
      · rw [h3]; simp [dma_submit_step, hf]; omega

/-! ## Claim theorems -/

/-- Claim C10: the CPU engine admissibility predicate can_migrate_mt (the
can_migrate_offc member of cpu_migrator) returns true for every
(destination, source) folio pair, so the CPU backend never declines a
pair on admissibility grounds. -/
theorem can_migrate_mt_always_true :
    ∀ dst src : Folio,
      can_migrate_mt dst src = true
        ∧ cpu_migrator.can_migrate_offc dst src = true :=
  fun _ _ => ⟨rfl, rfl⟩

/-- Claim C2: the DMA engine transfer entry points return 0 for every
batch, every requested channel count and every hardware/allocator
behaviour; failure to allocate the channel array, failure to acquire any
channel, and failure to allocate the work records each route the whole
batch to the fallback copy (fallbackCopied = batch size) rather than to
a non-zero return value. -/
theorem dma_transfer_always_succeeds :
    (∀ env n tc, (folios_copy_dma_parallel env n tc).retval = 0)
    ∧ (∀ env chan n, (folios_copy_dma env chan n).retval = 0)
    ∧ (∀ a w u n tc,
        (folios_copy_dma_parallel ⟨false, a, w, u⟩ n tc).fallbackCopied = n)
    ∧ (∀ b w u n tc,
        (folios_copy_dma_parallel ⟨b, 0, w, u⟩ n tc).fallbackCopied = n)
    ∧ (∀ a u n tc,
        (folios_copy_dma_parallel ⟨true, a, false, u⟩ n tc).fallbackCopied = n) := by
  refine ⟨?_, ?_, ?_, ?_, ?_⟩
  · intro env n tc
    unfold folios_copy_dma_parallel
    split
    · rfl
    · split
      · rfl
      · split
        · rfl
        · rfl
  · intro env chan n
    unfold folios_copy_dma folios_copy_dma_parallel
    split
    · rfl
    · split
      · rfl
      · split
        · rfl
        · rfl
  · intro a w u n tc
    simp [folios_copy_dma_parallel]
  · intro b w u n tc
    cases b <;> simp [folios_copy_dma_parallel]
  · intro a u n tc
    by_cases h : min (min tc n) a = 0 <;> simp [folios_copy_dma_parallel, h]

/-- Claim C4 counterexample: with nr_dma_chan stored as 1, writing 100
(outside [1, 16]) to the DMA channel-count setter is not rejected: it
returns success (4 = sizeof(int)) and changes the stored count to 16. -/
theorem nr_dma_chan_clamp_counterexample :
    nr_dma_chan_set 1 (Except.ok 100) = (MAX_DMA_CHANNELS, 4)
      ∧ (MAX_DMA_CHANNELS : Nat) ≠ 1
      ∧ ¬((100 : Int) ≤ (MAX_DMA_CHANNELS : Int)) := by
  decide

/-- Claim C4 as amended: the CPU worker-count setter accepts exactly the
values in [1, 64] (storing the value and returning count) and rejects
any other parsed value with -EINVAL and any parse failure with the
parser error, leaving the stored limit unchanged; the DMA channel-count
setter rejects parse failures and values below 1 without changing state,
but accepts every value at least 1, storing min(value, 16) and returning
success. -/
theorem setters_amended :
    (∀ limit v count, mt_threads_set limit (Except.ok v) count
        = if 0 < v ∧ v ≤ MAX_NUM_COPY_THREADS then (v, (count : Int))
          else (limit, -EINVAL))
    ∧ (∀ limit e count, mt_threads_set limit (Except.error e) count = (limit, e))
    ∧ (∀ nr a, nr_dma_chan_set nr (Except.ok a)
        = if a < 1 then (nr, -EINVAL) else (min a.toNat MAX_DMA_CHANNELS, 4))
    ∧ (∀ nr e, nr_dma_chan_set nr (Except.error e) = (nr, e)) := by
  refine ⟨fun limit v count => rfl, fun limit e count => rfl,
    fun nr a => ?_, fun nr e => rfl⟩
  simp only [nr_dma_chan_set]
  by_cases h1 : a < 1
  · rw [if_pos h1, if_pos h1]
  · rw [if_neg h1, if_neg h1]
    by_cases h2 : (MAX_DMA_CHANNELS : Int) ≤ a
    · rw [if_pos h2]
      have h3 : MAX_DMA_CHANNELS ≤ a.toNat := by
        simp only [MAX_DMA_CHANNELS] at h2 ⊢
        omega
      rw [Nat.min_eq_right h3]
    · rw [if_neg h2]
      have h3 : a.toNat ≤ MAX_DMA_CHANNELS := by
        simp only [MAX_DMA_CHANNELS] at h2 ⊢
        omega
      rw [Nat.min_eq_left h3]

/-- Claim C5 counterexample: with the CPU backend installed and active,
calling start_offloading with the DMA descriptor is not a no-op: the
active descriptor changes from "CPU_MT_COPY" to "DCBM" without any prior
uninstall. -/
theorem install_replace_counterexample :
    (start_offloading (start_offloading registry_init cpu_migrator)
        dmigrator).migrator.name = "DCBM"
      ∧ (start_offloading registry_init cpu_migrator).migrator.name
          = "CPU_MT_COPY"
      ∧ ("DCBM" : String) ≠ "CPU_MT_COPY" :=
  ⟨rfl, rfl, by decide⟩

/-- Claim C5 as amended: start_offloading always publishes its argument
as the active descriptor — also while another backend is active, so
install replaces rather than being a no-op — and leaves the dispatch
flag enabled (the cmpxchg only flips it when it was clear). -/
theorem install_replaces_active (s : RegistryState) (m : Migrator) :
    (start_offloading s m).migrator = m
      ∧ (start_offloading s m).dispatch_to_offc = true := by
  unfold start_offloading offc_update_migrator
  cases h : s.dispatch_to_offc <;> simp [h]

/-- Claim C6 counterexample: in the load-time state, in which no offload
backend is installed, get_active_migrator_name does not return an absent
result: it returns the built-in default name "kernel". -/
theorem active_name_counterexample :
    get_active_migrator_name registry_init = some "kernel"
      ∧ some "kernel" ≠ (none : Option String) :=
  ⟨rfl, by decide⟩

/-- Claim C6 as amended: get_active_migrator_name always returns the name
stored in the global descriptor slot and is never absent; with no
backend installed (at load time, or after stop_offloading) that name is
the built-in default "kernel", and after start_offloading with a
descriptor it is that descriptor name. -/
theorem active_name_never_absent :
    get_active_migrator_name registry_init = some "kernel"
      ∧ (∀ s, get_active_migrator_name (stop_offloading s) = some "kernel")
      ∧ (∀ s m, get_active_migrator_name (start_offloading s m) = some m.name)
      ∧ (∀ s, get_active_migrator_name s ≠ none) :=
  ⟨rfl, fun _ => rfl, fun _ _ => rfl, fun s => by
    simp [get_active_migrator_name]⟩

theorem copy_page_lists_mt_ok (limit_mt_num : Nat) (allocOk : Nat → Bool)
    (routineFails : CopyItem → Bool) (pairs : List FolioPair)
    (hA : firstAllocFailure allocOk (total_mt_num_of limit_mt_num) = none) :
    copy_page_lists_mt limit_mt_num allocOk routineFails pairs
      = ⟨mt_wait_aggregate ((mt_workers limit_mt_num pairs).map
            (copy_page_work_queue_thread routineFails)),
          some (if pairs.length < total_mt_num_of limit_mt_num
            then MtPolicy.A else MtPolicy.B),
          mt_workers limit_mt_num pairs,
          total_mt_num_of limit_mt_num, total_mt_num_of limit_mt_num,
          total_mt_num_of limit_mt_num⟩ := by
  unfold copy_page_lists_mt
  rw [hA]
  rfl

theorem mt_workers_nil (limit_mt_num : Nat) :
    ∀ w ∈ mt_workers limit_mt_num [], w = [] := by
  intro w hw
  unfold mt_workers at hw
  by_cases hc : ([] : List FolioPair).length < total_mt_num_of limit_mt_num
  · rw [if_pos hc] at hw
    obtain ⟨cpu, _, rfl⟩ := List.mem_map.mp hw
    rfl
  · rw [if_neg hc] at hw
    simp only [List.length_nil, Nat.not_lt, Nat.le_zero] at hc
    rw [hc] at hw
    simp [splitByCounts] at hw

/-- Claim C1: with the worker limit captured at dispatch start and all
work-descriptor allocations succeeding, copy_page_lists_mt selects
Policy A exactly when N < T and Policy B exactly when N ≥ T; the queued
worker item counts are N each under Policy A and
policyB_num_items = N/T + (1 if cpu < N mod T) under Policy B; those
Policy B counts sum to N and each equals N/T or N/T + 1, so they differ
pairwise by at most 1. -/
theorem mt_policy_and_partition (limit_mt_num : Nat) (allocOk : Nat → Bool)
    (routineFails : CopyItem → Bool) (pairs : List FolioPair)
    (hT : 0 < limit_mt_num)
    (hA : firstAllocFailure allocOk (total_mt_num_of limit_mt_num) = none) :
    (copy_page_lists_mt limit_mt_num allocOk routineFails pairs).policy
        = some (if pairs.length < total_mt_num_of limit_mt_num
            then MtPolicy.A else MtPolicy.B)
    ∧ (copy_page_lists_mt limit_mt_num allocOk routineFails pairs).workers.map
          List.length
        = (List.range (total_mt_num_of limit_mt_num)).map
            (fun cpu => if pairs.length < total_mt_num_of limit_mt_num
              then pairs.length
              else policyB_num_items pairs.length
                (total_mt_num_of limit_mt_num) cpu)
    ∧ ((List.range (total_mt_num_of limit_mt_num)).map
          (policyB_num_items pairs.length (total_mt_num_of limit_mt_num))).sum
        = pairs.length
    ∧ ((List.range (total_mt_num_of limit_mt_num)).map
          (policyB_num_items pairs.length (total_mt_num_of limit_mt_num))).all
          (fun c => c == pairs.length / total_mt_num_of limit_mt_num
            || c == pairs.length / total_mt_num_of limit_mt_num + 1) = true := by
  have hTpos : 0 < total_mt_num_of limit_mt_num := by
    unfold total_mt_num_of MAX_NUM_COPY_THREADS
    omega
  rw [copy_page_lists_mt_ok limit_mt_num allocOk routineFails pairs hA]
  dsimp only
  refine ⟨rfl, ?_, policyB_sum pairs.length _ hTpos, ?_⟩
  · unfold mt_workers
    by_cases hc : pairs.length < total_mt_num_of limit_mt_num
    · rw [if_pos hc]
      have hfun : (List.length ∘ fun cpu =>
          policyA_items (total_mt_num_of limit_mt_num) cpu pairs)
          = fun _ => pairs.length :=
        funext (fun cpu => by simp [policyA_items])
      rw [List.map_map, hfun]
      simp [hc]
    · rw [if_neg hc,
        splitByCounts_map_length
          ((List.range (total_mt_num_of limit_mt_num)).map
            (policyB_num_items pairs.length (total_mt_num_of limit_mt_num)))
          (pairs.map wholePairItem)
          (by rw [policyB_sum pairs.length _ hTpos, List.length_map])]
      simp [hc]
  · rw [List.all_eq_true]
    intro c hcm
    obtain ⟨cpu, _, rfl⟩ := List.mem_map.mp hcm
    by_cases h : cpu < pairs.length % total_mt_num_of limit_mt_num <;>
      simp [policyB_num_items, h]

theorem mt_policy_and_partition_witness :
    (copy_page_lists_mt 4 (fun _ => true) (fun _ => false) c1pairs).policy
        = some (if c1pairs.length < total_mt_num_of 4
            then MtPolicy.A else MtPolicy.B)
    ∧ (copy_page_lists_mt 4 (fun _ => true) (fun _ => false) c1pairs).workers.map
          List.length
        = (List.range (total_mt_num_of 4)).map
            (fun cpu => if c1pairs.length < total_mt_num_of 4
              then c1pairs.length
              else policyB_num_items c1pairs.length (total_mt_num_of 4) cpu)
    ∧ ((List.range (total_mt_num_of 4)).map
          (policyB_num_items c1pairs.length (total_mt_num_of 4))).sum
        = c1pairs.length
    ∧ ((List.range (total_mt_num_of 4)).map
          (policyB_num_items c1pairs.length (total_mt_num_of 4))).all
          (fun c => c == c1pairs.length / total_mt_num_of 4
            || c == c1pairs.length / total_mt_num_of 4 + 1) = true :=
  mt_policy_and_partition 4 (fun _ => true) (fun _ => false) c1pairs
    (by decide) (by decide)

/-- Claim C3: when the dispatch proceeds (all allocations succeed), the
return value of copy_page_lists_mt is -EAGAIN exactly when some queued
worker has its failure flag set, and 0 exactly when every worker
reported success: no partially-applied batch is reported as success. -/
theorem mt_aggregate_retry (limit_mt_num : Nat) (allocOk : Nat → Bool)
    (routineFails : CopyItem → Bool) (pairs : List FolioPair)
    (hA : firstAllocFailure allocOk (total_mt_num_of limit_mt_num) = none) :
    (copy_page_lists_mt limit_mt_num allocOk routineFails pairs).retval
        = (if (copy_page_lists_mt limit_mt_num allocOk routineFails
                pairs).workers.any (copy_page_work_queue_thread routineFails)
           then -EAGAIN else 0)
    ∧ ((copy_page_lists_mt limit_mt_num allocOk routineFails pairs).retval = 0
        ↔ (copy_page_lists_mt limit_mt_num allocOk routineFails
              pairs).workers.all
            (fun w => !(copy_page_work_queue_thread routineFails w)) = true) := by
  rw [copy_page_lists_mt_ok limit_mt_num allocOk routineFails pairs hA]
  dsimp only
  rw [mt_wait_aggregate_map]
  constructor
  · rfl
  · cases hany : (mt_workers limit_mt_num pairs).any
        (copy_page_work_queue_thread routineFails) <;>
      simp [hany, all_bnot_eq_bnot_any, EAGAIN]

theorem mt_aggregate_retry_witness :
    (copy_page_lists_mt 2 (fun _ => true) (fun _ => true)
        [{ dst_addr := 0, src_addr := 4096, nr_pages := 1 }]).retval
        = (if (copy_page_lists_mt 2 (fun _ => true) (fun _ => true)
                [{ dst_addr := 0, src_addr := 4096, nr_pages := 1 }]).workers.any
              (copy_page_work_queue_thread (fun _ => true))
           then -EAGAIN else 0)
    ∧ ((copy_page_lists_mt 2 (fun _ => true) (fun _ => true)
          [{ dst_addr := 0, src_addr := 4096, nr_pages := 1 }]).retval = 0
        ↔ (copy_page_lists_mt 2 (fun _ => true) (fun _ => true)
              [{ dst_addr := 0, src_addr := 4096, nr_pages := 1 }]).workers.all
            (fun w => !(copy_page_work_queue_thread (fun _ => true) w))
          = true) :=
  mt_aggregate_retry 2 (fun _ => true) (fun _ => true)
    [{ dst_addr := 0, src_addr := 4096, nr_pages := 1 }] (by decide)

/-- Claim C7: when the kzalloc loop fails at some worker index k,
copy_page_lists_mt frees exactly the k descriptors already allocated
(nFreed = nAlloc = k), queues no worker, builds no work item, and
returns -ENOMEM: an all-or-nothing dispatch. -/
theorem mt_alloc_failure_atomic (limit_mt_num k : Nat) (allocOk : Nat → Bool)
    (routineFails : CopyItem → Bool) (pairs : List FolioPair)
    (hk : firstAllocFailure allocOk (total_mt_num_of limit_mt_num) = some k) :
    copy_page_lists_mt limit_mt_num allocOk routineFails pairs
      = ⟨-ENOMEM, none, [], 0, k, k⟩ := by
  unfold copy_page_lists_mt
  rw [hk]
  rfl

theorem mt_alloc_failure_atomic_witness :
    copy_page_lists_mt 4 (fun cpu => decide (cpu < 2)) (fun _ => false)
        [{ dst_addr := 0, src_addr := 4096, nr_pages := 1 }]
      = ⟨-ENOMEM, none, [], 0, 2, 2⟩ :=
  mt_alloc_failure_atomic 4 2 (fun cpu => decide (cpu < 2)) (fun _ => false)
    [{ dst_addr := 0, src_addr := 4096, nr_pages := 1 }] (by decide)

/-- Claim C8: on the accelerated path (both allocations succeed and at
least one channel is acquired), exactly the pairs whose
process_folio_dma_transfer call fails at mapping, descriptor
preparation, or submission are copied synchronously, the fallback
counter equals their number, every other pair stays submitted
asynchronously, no whole-batch fallback happens, and the call returns
0: per-unit failures leave the processing of the other pairs
unaffected. -/
theorem dma_per_unit_fallback (env : DmaEnv) (n tc : Nat)
    (hc : env.channelsAlloc = true) (hw : env.worksAlloc = true)
    (ha : 0 < min (min tc n) env.availChannels) :
    folios_copy_dma_parallel env n tc
      = ⟨0, 0,
          (List.range n).filter (fun i => dmaUnitFails env i),
          (List.range n).filter (fun i => !(dmaUnitFails env i)),
          ((List.range n).filter (fun i => dmaUnitFails env i)).length,
          min (min tc n) env.availChannels⟩ := by
  have hne : ¬ (min (min tc n) env.availChannels = 0) :=
    Nat.pos_iff_ne_zero.mp ha
  obtain ⟨h1, h2, h3⟩ := dma_submit_loop_spec env
    (min (min tc n) env.availChannels) (List.range n) ⟨[], [], 0, 0⟩
  unfold folios_copy_dma_parallel
  rw [hc, hw]
  simp only [Bool.not_true]
  rw [if_neg (by decide : ¬ (false = true)), if_neg hne,
    if_neg (by decide : ¬ (false = true))]
  unfold dma_submit_loop
  rw [h1, h2, h3]
  simp

theorem dma_per_unit_fallback_witness :
    folios_copy_dma_parallel
        ⟨true, 2, true, fun i => if i = 1 then DmaPrepStage.prepFail
          else DmaPrepStage.success⟩ 3 4
      = ⟨0, 0, [1], [0, 2], 1, 2⟩ :=
  (dma_per_unit_fallback
      ⟨true, 2, true, fun i => if i = 1 then DmaPrepStage.prepFail
        else DmaPrepStage.success⟩ 3 4 rfl rfl (by decide)).trans (by decide)

/-- Claim C9 counterexample: with a batch of size 0, copy_page_lists_mt
does not return success when its per-worker allocations fail: with every
kzalloc failing it returns -ENOMEM, not 0. -/
theorem zero_batch_enomem_counterexample :
    (copy_page_lists_mt 4 (fun _ => false) (fun _ => false) []).retval
        = -ENOMEM
      ∧ -ENOMEM ≠ (0 : Int) := by
  decide

/-- Claim C9 as amended: for a batch of size 0 the DMA engine returns 0
and copies nothing through any path (its channel count clamps to 0, so
it takes the empty whole-batch fallback); the CPU engine builds only
empty worker item lists (so it copies nothing), but it still allocates
and queues its per-worker descriptors, returning 0 when all those
allocations succeed and -ENOMEM otherwise. -/
theorem zero_batch_amended :
    (∀ env tc, folios_copy_dma_parallel env 0 tc = ⟨0, 0, [], [], 0, 0⟩)
    ∧ (∀ limit_mt_num allocOk routineFails,
        (copy_page_lists_mt limit_mt_num allocOk routineFails []).workers.all
            List.isEmpty = true
        ∧ (copy_page_lists_mt limit_mt_num allocOk routineFails []).retval
            = (if firstAllocFailure allocOk (total_mt_num_of limit_mt_num)
                  = none
               then 0 else -ENOMEM)) := by
  constructor
  · intro env tc
    unfold folios_copy_dma_parallel
    split
    · rfl
    · rw [if_pos (by simp)]
  · intro limit_mt_num allocOk routineFails
    cases hA : firstAllocFailure allocOk (total_mt_num_of limit_mt_num) with
    | some k =>
      unfold copy_page_lists_mt
      rw [hA, if_neg (by decide : ¬ (CONFIG_HIGHMEM = true))]
      exact ⟨rfl, by simp⟩
    | none =>
      unfold copy_page_lists_mt
      rw [hA, if_neg (by decide : ¬ (CONFIG_HIGHMEM = true))]
      dsimp only
      refine ⟨?_, ?_⟩
      · rw [List.all_eq_true]
        intro w hw
        rw [mt_workers_nil limit_mt_num w hw]
        rfl
      · rw [mt_wait_aggregate_map]
        have hany : (mt_workers limit_mt_num []).any
            (copy_page_work_queue_thread routineFails) = false := by
          rw [List.any_eq_false]
          intro w hw
          rw [mt_workers_nil limit_mt_num w hw]
          simp [copy_page_work_queue_thread]
        rw [hany]
        simp
